import Mathlib

/- Shallow embedding of the game-review backend subsystem for platform account
linking and library synchronisation, translated from the Python sources under
src/backend/src: the OAuth state manager, the OAuth orchestration service, the
library sync service and the background sync job manager, together with the
repository methods and platform-client transforms they call.  Datetimes are
modelled as Nat ticks, SQL tables as Lean lists, Python exceptions as an error
type threaded through explicit state passing, and the HTTP calls made by the
platform clients as an Env record of oracles. -/

deriving instance DecidableEq for Except

namespace GameReviewApp

/-- Python exceptions the modelled code can raise.  The AppException subclasses
of core/errors.py carry their message; typeError models a TypeError raised by
the Python runtime itself (a call with a mismatched signature, or subscripting
None), attributeError an access to a missing attribute. -/
inductive PyErr where
  | notFoundError (msg : String)
  | conflictError (msg : String)
  | authenticationError (msg : String)
  | externalServiceError (msg : String)
  | valueError (msg : String)
  | typeError (msg : String)
  | attributeError (msg : String)
  deriving DecidableEq, Repr

/-- Models str(e): AppException.__init__ forwards the message to Exception, and
str of TypeError, AttributeError and ValueError is the message they carry. -/
def pyErrStr : PyErr → String
  | .notFoundError m => m
  | .conflictError m => m
  | .authenticationError m => m
  | .externalServiceError m => m
  | .valueError m => m
  | .typeError m => m
  | .attributeError m => m

/-- Message of the TypeError raised when oauth_service.py calls
LinkedAccountRepository.update_tokens with the keyword argument expires_at: the
method signature in linked_account_repository.py names that parameter
token_expires_at, so Python rejects the call before the method body runs. -/
def updateTokensKwargMsg : String :=
  "update_tokens got an unexpected keyword argument expires_at"

/-- Message of the TypeError raised when NotFoundError is constructed with a
single argument: errors.NotFoundError.__init__ requires (resource, identifier),
while oauth_service.unlink_account and library_sync_service pass one string. -/
def notFoundCtorMsg : String :=
  "NotFoundError missing 1 required positional argument: identifier"

/-- Message of the TypeError raised by subscripting a None PSN profile in
handle_oauth_callback. -/
def noneNotSubscriptableMsg : String :=
  "NoneType object is not subscriptable"

/-- Message of the AttributeError raised by _match_platform_game: GameRepository
in game_repository.py defines search, but no search_by_name. -/
def searchByNameMissingMsg : String :=
  "GameRepository object has no attribute search_by_name"

/-- Supported gaming platforms (models/linked_account.py, PlatformType). -/
inductive PlatformType where
  | steam
  | playstation
  | xbox
  deriving DecidableEq, BEq, Repr

/-- The .value of the Python str-enum member. -/
def PlatformType.value : PlatformType → String
  | .steam => "steam"
  | .playstation => "playstation"
  | .xbox => "xbox"

/-- Row of the linked_accounts table (models/linked_account.py).  Datetime
columns are Nat ticks and nullable columns are Option. -/
structure LinkedAccount where
  id : Nat
  user_id : Nat
  platform : PlatformType
  platform_user_id : String
  platform_username : Option String := none
  access_token : Option String := none
  refresh_token : Option String := none
  token_expires_at : Option Nat := none
  connected_at : Nat := 0
  last_synced_at : Option Nat := none
  deriving DecidableEq, Repr

/-- LinkedAccount.is_token_expired: False when token_expires_at is NULL,
otherwise utcnow() >= token_expires_at. -/
def LinkedAccount.is_token_expired (a : LinkedAccount) (now : Nat) : Bool :=
  match a.token_expires_at with
  | none => false
  | some t => decide (t ≤ now)

/-- Row of the games table (models/game.py); only the columns the sync flow
reads are carried here (the catalog metadata columns are never consulted). -/
structure Game where
  id : Nat
  name : String
  rating_count : Nat := 0
  deriving DecidableEq, Repr

/-- Row of the game_library table (models/game_library.py); playtime_hours is
an exact rational. -/
structure GameLibrary where
  id : Nat
  user_id : Nat
  game_id : Nat
  linked_account_id : Option Nat := none
  playtime_hours : ℚ := 0
  achievements_count : Nat := 0
  last_played_at : Option Nat := none
  imported_at : Nat := 0
  deriving DecidableEq, Repr

/-- The relational store: one list per table plus autoincrement counters. -/
structure DB where
  linked_accounts : List LinkedAccount := []
  games : List Game := []
  library : List GameLibrary := []
  next_account_id : Nat := 1
  next_library_id : Nat := 1
  deriving DecidableEq, Repr

/-- LinkedAccountRepository.get_by_user_and_platform; the row is unique by the
uq_user_platform constraint, so the first match is the row. -/
def LinkedAccountRepository.get_by_user_and_platform (db : DB) (uid : Nat)
    (p : PlatformType) : Option LinkedAccount :=
  db.linked_accounts.find? (fun a => a.user_id == uid && a.platform == p)

/-- LinkedAccountRepository.get_by_platform_user; unique by uq_platform_user. -/
def LinkedAccountRepository.get_by_platform_user (db : DB) (p : PlatformType)
    (pid : String) : Option LinkedAccount :=
  db.linked_accounts.find? (fun a => a.platform == p && a.platform_user_id == pid)

/-- LinkedAccountRepository.get_by_id. -/
def LinkedAccountRepository.get_by_id (db : DB) (aid : Nat) : Option LinkedAccount :=
  db.linked_accounts.find? (fun a => a.id == aid)

/-- Insertion into a list kept sorted by connected_at descending; models the
order_by connected_at desc of get_user_accounts. -/
def insertByConnectedDesc (a : LinkedAccount) :
    List LinkedAccount → List LinkedAccount
  | [] => [a]
  | b :: t =>
    if a.connected_at ≤ b.connected_at then b :: insertByConnectedDesc a t
    else a :: b :: t

/-- Sort by connected_at descending. -/
def sortByConnectedDesc : List LinkedAccount → List LinkedAccount
  | [] => []
  | a :: t => insertByConnectedDesc a (sortByConnectedDesc t)

/-- LinkedAccountRepository.get_user_accounts: all accounts of the user, most
recently connected first. -/
def LinkedAccountRepository.get_user_accounts (db : DB) (uid : Nat) :
    List LinkedAccount :=
  sortByConnectedDesc (db.linked_accounts.filter (fun a => a.user_id == uid))

/-- LinkedAccountRepository.create: inserts a fresh row with connected_at set
to utcnow(). -/
def LinkedAccountRepository.create (db : DB) (now uid : Nat) (p : PlatformType)
    (pid : String) (uname atok rtok : Option String) (texp : Option Nat) :
    LinkedAccount × DB :=
  let a : LinkedAccount :=
    { id := db.next_account_id, user_id := uid, platform := p,
      platform_user_id := pid, platform_username := uname,
      access_token := atok, refresh_token := rtok, token_expires_at := texp,
      connected_at := now }
  (a, { db with
        linked_accounts := db.linked_accounts ++ [a],
        next_account_id := db.next_account_id + 1 })

/-- LinkedAccountRepository.update_tokens as declared: stores the access token
always, the refresh token only when truthy (a None or empty string is kept
out), the expiry only when provided.  The oauth_service call sites never reach
this body: they pass the keyword expires_at, which Python rejects with a
TypeError since the declared parameter is token_expires_at. -/
def LinkedAccountRepository.update_tokens (db : DB) (aid : Nat) (atok : String)
    (rtok : Option String) (texp : Option Nat) : Option LinkedAccount × DB :=
  match LinkedAccountRepository.get_by_id db aid with
  | none => (none, db)
  | some a =>
    let a2 : LinkedAccount :=
      { a with
        access_token := some atok,
        refresh_token :=
          match rtok with
          | some r => if r == "" then a.refresh_token else some r
          | none => a.refresh_token,
        token_expires_at :=
          match texp with
          | some t => some t
          | none => a.token_expires_at }
    (some a2, { db with
                linked_accounts :=
                  db.linked_accounts.map
                    (fun x => if x.id == a.id then a2 else x) })

/-- LinkedAccountRepository.update_sync_time: stamps last_synced_at. -/
def LinkedAccountRepository.update_sync_time (db : DB) (aid : Nat) (now : Nat) :
    DB :=
  match LinkedAccountRepository.get_by_id db aid with
  | none => db
  | some a =>
    { db with
      linked_accounts :=
        db.linked_accounts.map
          (fun x =>
            if x.id == a.id then { a with last_synced_at := some now } else x) }

/-- LinkedAccountRepository.delete_by_user_and_platform: deletes the row and
reports whether one was found. -/
def LinkedAccountRepository.delete_by_user_and_platform (db : DB) (uid : Nat)
    (p : PlatformType) : Bool × DB :=
  match LinkedAccountRepository.get_by_user_and_platform db uid p with
  | none => (false, db)
  | some a =>
    (true, { db with
             linked_accounts :=
               db.linked_accounts.filter (fun x => x.id != a.id) })

/-- GameLibraryRepository.get_by_user_game: filter by user and game, and by
linked account only when one is given. -/
def GameLibraryRepository.get_by_user_game (db : DB) (uid gid : Nat)
    (laid : Option Nat) : Option GameLibrary :=
  db.library.find? (fun e =>
    e.user_id == uid && e.game_id == gid &&
      (match laid with
       | none => true
       | some l => e.linked_account_id == some l))

/-- GameLibraryRepository.create: inserts a fresh entry, imported_at = now. -/
def GameLibraryRepository.create (db : DB) (now uid gid : Nat)
    (laid : Option Nat) (pt : ℚ) (ach : Nat) (lp : Option Nat) :
    GameLibrary × DB :=
  let e : GameLibrary :=
    { id := db.next_library_id, user_id := uid, game_id := gid,
      linked_account_id := laid, playtime_hours := pt,
      achievements_count := ach, last_played_at := lp, imported_at := now }
  (e, { db with
        library := db.library ++ [e],
        next_library_id := db.next_library_id + 1 })

/-- GameLibraryRepository.upsert: update in place when a row matching (user,
game, linked account) exists, else insert.  The returned value is the ORM
entry itself in both branches, not a created flag; last_played_at is only
overwritten when the new value is truthy. -/
def GameLibraryRepository.upsert (db : DB) (now uid gid : Nat)
    (laid : Option Nat) (pt : ℚ) (ach : Nat) (lp : Option Nat) :
    GameLibrary × DB :=
  match GameLibraryRepository.get_by_user_game db uid gid laid with
  | some e =>
    let e2 : GameLibrary :=
      { e with
        playtime_hours := pt,
        achievements_count := ach,
        last_played_at :=
          match lp with
          | some t => some t
          | none => e.last_played_at }
    (e2, { db with
           library := db.library.map (fun x => if x.id == e.id then e2 else x) })
  | none => GameLibraryRepository.create db now uid gid laid pt ach lp

/-- Raw entry of the Steam GetOwnedGames response. -/
structure RawSteamGame where
  appid : Nat
  name : Option String := none
  playtime_forever : Option Nat := none
  rtime_last_played : Option Nat := none
  deriving DecidableEq, Repr

/-- Earned trophy tiers of a PSN title. -/
structure Trophies where
  bronze : Nat := 0
  silver : Nat := 0
  gold : Nat := 0
  platinum : Nat := 0
  deriving DecidableEq, Repr

/-- A platform game dict in the normalized format the clients hand to the sync
service; a field is none when the dict has no such key. -/
structure PlatformGame where
  platform_game_id : Option String := none
  name : Option String := none
  playtime_hours : Option ℚ := none
  last_played_at : Option Nat := none
  last_played : Option Nat := none
  last_updated : Option Nat := none
  earned_trophies : Option Trophies := none
  achievements_earned : Option Nat := none
  deriving DecidableEq, Repr

/-- Token bundle returned by the OAuth2 client exchange and refresh methods;
xuid and gamertag are carried by the Xbox bundle (a none value models a null
claim, the keys themselves are always present). -/
structure TokenData where
  access_token : String
  refresh_token : Option String := none
  expires_at : Nat
  xuid : Option String := none
  gamertag : Option String := none
  deriving DecidableEq, Repr

/-- PSN profile as returned by PlayStationOAuthClient.get_user_info. -/
structure PsnUser where
  account_id : Option String := none
  username : Option String := none
  deriving DecidableEq, Repr

/-- Outcomes of the HTTP requests the platform clients make; an error value
means the underlying request raised inside the client's try block. -/
structure Env where
  steamOwnedGames : String → Except String (List RawSteamGame)
  steamAchievements : String → String → Except String (List Nat)
  psnUserTitles : Option String → String → Except String (List PlatformGame)
  xboxUserTitles : String → Option String → Except String (List PlatformGame)
  psnRefresh : Option String → Option TokenData
  xboxRefresh : Option String → Option TokenData
  steamVerify : Option String
  steamUserInfo : String → Option String
  psnExchange : String → String → Option TokenData
  xboxExchange : String → String → Option TokenData
  psnUserInfo : String → Option PsnUser

/-- The number of centihours in m minutes, rounded to the nearest integer with
ties to even: the integer-arithmetic core of Python round(m / 60, 2). -/
def roundCentihours (m : Nat) : Nat :=
  let t := m * 100
  let f := t / 60
  let r := t % 60
  if 2 * r < 60 then f
  else if 60 < 2 * r then f + 1
  else if f % 2 == 0 then f else f + 1

/-- Python round(m / 60, 2) for m minutes, as an exact rational; the tie and
binary-float artifacts of the float computation are out of scope. -/
def roundPy2 (m : Nat) : ℚ := (roundCentihours m : ℚ) / 100

/-- SteamOAuthClient.get_owned_games: transforms each API entry into the
normalized format, with name defaulting to App followed by the appid, playtime
minutes divided by 60 and rounded to two decimals, and a zero or missing
rtime_last_played mapped to none; any exception yields an empty list. -/
def SteamOAuthClient.get_owned_games (env : Env) (steam_id : String) :
    List PlatformGame :=
  match env.steamOwnedGames steam_id with
  | .error _ => []
  | .ok games =>
    games.map (fun g =>
      { platform_game_id := some (toString g.appid),
        name := some (g.name.getD ("App " ++ toString g.appid)),
        playtime_hours := some (roundPy2 (g.playtime_forever.getD 0)),
        last_played_at :=
          match g.rtime_last_played with
          | some t => if t == 0 then none else some t
          | none => none })

/-- SteamOAuthClient.get_achievements: returns the total achievement count and
the count of achievements whose achieved flag equals 1, or none when the
request fails.  The library sync never calls this method. -/
def SteamOAuthClient.get_achievements (env : Env) (steam_id app_id : String) :
    Option (Nat × Nat) :=
  match env.steamAchievements steam_id app_id with
  | .error _ => none
  | .ok flags => some (flags.length, (flags.filter (fun a => a == 1)).length)

/-- PlayStationOAuthClient.get_user_titles: the body transforms raw trophy
titles into the normalized format, which the environment supplies directly; the
catch-all except returns an empty list when the request fails. -/
def PlayStationOAuthClient.get_user_titles (env : Env) (tok : Option String)
    (account_id : String) : List PlatformGame :=
  match env.psnUserTitles tok account_id with
  | .error _ => []
  | .ok l => l

/-- XboxOAuthClient.get_user_titles: as for PSN, the environment supplies the
normalized titles and a failed request yields an empty list. -/
def XboxOAuthClient.get_user_titles (env : Env) (xuid : String)
    (xsts : Option String) : List PlatformGame :=
  match env.xboxUserTitles xuid xsts with
  | .error _ => []
  | .ok l => l

/-- Entry of the in-memory dict of OAuthStateManager. -/
structure OAuthStateData where
  user_id : Nat
  platform : String
  expires_at : Nat
  deriving DecidableEq, Repr

/-- Dict lookup on the state store. -/
def statesLookup (s : List (String × OAuthStateData)) (tok : String) :
    Option OAuthStateData :=
  (s.find? (fun kv => kv.1 == tok)).map (fun kv => kv.2)

/-- Dict key deletion on the state store. -/
def statesErase (s : List (String × OAuthStateData)) (tok : String) :
    List (String × OAuthStateData) :=
  s.filter (fun kv => kv.1 != tok)

/-- OAuthStateManager.get_user_id: consume a state token.  Unknown token:
return none with the store untouched.  Found but expired (now strictly past
expires_at): delete the entry and return none.  Otherwise delete the entry
(single use) and return the stored user id. -/
def OAuthStateManager.get_user_id (now : Nat)
    (s : List (String × OAuthStateData)) (tok : String) :
    Option Nat × List (String × OAuthStateData) :=
  match statesLookup s tok with
  | none => (none, s)
  | some d =>
    if d.expires_at < now then (none, statesErase s tok)
    else (some d.user_id, statesErase s tok)

/-- OAuthService.refresh_token_if_needed.  Steam accounts are returned
unchanged (no OAuth tokens); so is an account whose token is not expired.  For
an expired token the platform client refresh is called; a none result raises
AuthenticationError.  A successful result reaches the update_tokens call,
which Python rejects with a TypeError because the caller passes the keyword
expires_at while the repository method declares token_expires_at — the fresh
tokens are never persisted. -/
def OAuthService.refresh_token_if_needed (env : Env) (now : Nat) (db : DB)
    (a : LinkedAccount) : Except PyErr LinkedAccount × DB :=
  if a.platform == .steam then (.ok a, db)
  else if !(a.is_token_expired now) then (.ok a, db)
  else
    let td : Option TokenData :=
      match a.platform with
      | .playstation => env.psnRefresh a.refresh_token
      | .xbox => env.xboxRefresh a.refresh_token
      | .steam => none
    match td with
    | none =>
      (.error (.authenticationError
        ("Failed to refresh " ++ a.platform.value ++ " token")), db)
    | some _ => (.error (.typeError updateTokensKwargMsg), db)

/-- OAuthService.unlink_account: delete_by_user_and_platform removes the row
when present.  When absent the service raises NotFoundError with a single
argument, but the NotFoundError constructor requires (resource, identifier),
so the exception that actually escapes is a TypeError. -/
def OAuthService.unlink_account (db : DB) (uid : Nat) (p : PlatformType) :
    Except PyErr Unit × DB :=
  match LinkedAccountRepository.delete_by_user_and_platform db uid p with
  | (false, db2) => (.error (.typeError notFoundCtorMsg), db2)
  | (true, db2) => (.ok (), db2)

/-- Python falsiness of an optional string: None or the empty string. -/
def falsyStr : Option String → Bool
  | none => true
  | some s => s == ""

/-- OAuthService.handle_steam_callback: verify the OpenID response and fetch
the profile (each failure raises AuthenticationError); an identity owned by a
different user raises ConflictError with nothing written; the same user
relinking has the existing row updated in place (username and connected_at);
otherwise a tokenless account is inserted with an empty access token. -/
def OAuthService.handle_steam_callback (env : Env) (now : Nat) (db : DB)
    (uid : Nat) : Except PyErr LinkedAccount × DB :=
  match env.steamVerify with
  | none => (.error (.authenticationError "Steam authentication failed"), db)
  | some steam_id =>
    match env.steamUserInfo steam_id with
    | none =>
      (.error (.authenticationError "Failed to retrieve Steam user info"), db)
    | some username =>
      match LinkedAccountRepository.get_by_platform_user db .steam steam_id with
      | some existing =>
        if existing.user_id != uid then
          (.error (.conflictError
            "This Steam account is already linked to another user"), db)
        else
          let e2 : LinkedAccount :=
            { existing with
              platform_username := some username,
              connected_at := now }
          (.ok e2, { db with
                     linked_accounts :=
                       db.linked_accounts.map
                         (fun x => if x.id == existing.id then e2 else x) })
      | none =>
        let (a, db2) := LinkedAccountRepository.create db now uid .steam
          steam_id (some username) (some "") none none
        (.ok a, db2)

/-- OAuthService.handle_oauth_callback (PSN and Xbox).  The code is exchanged
for a token bundle (a none bundle raises AuthenticationError); the platform
identity is resolved (a none PSN profile is subscripted and raises TypeError;
a falsy identity raises AuthenticationError); an identity held by a different
user raises ConflictError with nothing written.  When the same user
reconnects, the code calls update_tokens with the keyword expires_at, which
raises TypeError (the parameter is named token_expires_at), so the
update-in-place never happens; with no existing row a new account is
inserted carrying the bundle tokens. -/
def OAuthService.handle_oauth_callback (env : Env) (now : Nat) (db : DB)
    (uid : Nat) (p : PlatformType) (code redirect_uri : String) :
    Except PyErr LinkedAccount × DB :=
  if p == .steam then
    (.error (.valueError ("Invalid platform for OAuth callback: " ++ p.value)), db)
  else
    let td? : Option TokenData :=
      match p with
      | .playstation => env.psnExchange code redirect_uri
      | .xbox => env.xboxExchange code redirect_uri
      | .steam => none
    match td? with
    | none =>
      (.error (.authenticationError (p.value ++ " token exchange failed")), db)
    | some td =>
      let idsRes : Except PyErr (Option String × Option String) :=
        match p with
        | .playstation =>
          match env.psnUserInfo td.access_token with
          | none => .error (.typeError noneNotSubscriptableMsg)
          | some ui => .ok (ui.account_id, ui.username)
        | _ => .ok (td.xuid, td.gamertag)
      match idsRes with
      | .error e => (.error e, db)
      | .ok (pid?, uname?) =>
        if falsyStr pid? then
          (.error (.authenticationError
            ("Failed to retrieve " ++ p.value ++ " user info")), db)
        else
          let pid := pid?.getD ""
          match LinkedAccountRepository.get_by_platform_user db p pid with
          | some existing =>
            if existing.user_id != uid then
              (.error (.conflictError
                ("This " ++ p.value ++
                  " account is already linked to another user")), db)
            else
              (.error (.typeError updateTokensKwargMsg), db)
          | none =>
            let (a, db2) := LinkedAccountRepository.create db now uid p pid
              uname? (some td.access_token) td.refresh_token (some td.expires_at)
            (.ok a, db2)

/-- LibrarySyncService._fetch_platform_games: dispatch to the platform client.
Each client catches its own request errors and returns an empty list, so the
try/except of the source (whose re-raise of ExternalServiceError is itself
mis-constructed with a single argument) is unreachable for the three platform
values and the dispatch is total. -/
def LibrarySyncService.fetch_platform_games (env : Env) (a : LinkedAccount) :
    List PlatformGame :=
  match a.platform with
  | .steam => SteamOAuthClient.get_owned_games env a.platform_user_id
  | .playstation =>
    PlayStationOAuthClient.get_user_titles env a.access_token a.platform_user_id
  | .xbox => XboxOAuthClient.get_user_titles env a.platform_user_id a.access_token

/-- LibrarySyncService._match_platform_game.  A falsy name returns none.  For
a real name the next statement evaluates self.game_repo.search_by_name, but
GameRepository defines no such method (only search), so Python raises
AttributeError before any lookup runs; the IGDB fallback below it (calling
game_data_service.sync_games_by_search, also nonexistent on GameDataService)
is never reached. -/
def LibrarySyncService.match_platform_game (db : DB) (pg : PlatformGame) :
    Except PyErr (Option Game) × DB :=
  if falsyStr pg.name then (.ok none, db)
  else (.error (.attributeError searchByNameMissingMsg), db)

/-- LibrarySyncService._calculate_achievements: Steam always yields 0 (the
owned-games API carries no achievement data); PlayStation sums the earned
trophy tiers; Xbox reads achievements_earned. -/
def LibrarySyncService.calculate_achievements (pg : PlatformGame)
    (p : PlatformType) : Nat :=
  match p with
  | .steam => 0
  | .playstation =>
    let e := pg.earned_trophies.getD ⟨0, 0, 0, 0⟩
    e.bronze + e.silver + e.gold + e.platinum
  | .xbox => pg.achievements_earned.getD 0

/-- Python truthiness of the ORM entry upsert returns: SQLAlchemy models do
not override bool, so the object bound as was_created is always truthy. -/
def pyTruthy (_e : GameLibrary) : Bool := true

/-- The last-played fallback chain of the upsert call site: get last_played_at
or last_played or last_updated. -/
def lastPlayedOf (pg : PlatformGame) : Option Nat :=
  match pg.last_played_at with
  | some t => some t
  | none =>
    match pg.last_played with
    | some t => some t
    | none => pg.last_updated

/-- Per-platform sync counts of _sync_platform_library. -/
structure SyncCounts where
  total : Nat := 0
  new : Nat := 0
  updated : Nat := 0
  deriving DecidableEq, Repr

/-- The per-game loop of _sync_platform_library: a per-game exception is
caught and the game skipped; on a match the library entry is upserted and the
returned value — the entry object, always truthy — decides the
new-versus-updated branch, so new_count is incremented on updates as well. -/
def LibrarySyncService.sync_games_loop (now uid account_id : Nat)
    (p : PlatformType) :
    List PlatformGame → Nat → Nat → DB → Nat × Nat × DB
  | [], n, u, db => (n, u, db)
  | pg :: rest, n, u, db =>
    match LibrarySyncService.match_platform_game db pg with
    | (.error _, db2) =>
      LibrarySyncService.sync_games_loop now uid account_id p rest n u db2
    | (.ok none, db2) =>
      LibrarySyncService.sync_games_loop now uid account_id p rest n u db2
    | (.ok (some g), db2) =>
      let ach := LibrarySyncService.calculate_achievements pg p
      let (entry, db3) := GameLibraryRepository.upsert db2 now uid g.id
        (some account_id) (pg.playtime_hours.getD 0) ach (lastPlayedOf pg)
      let was_created := pyTruthy entry
      if was_created then
        LibrarySyncService.sync_games_loop now uid account_id p rest (n + 1) u db3
      else
        LibrarySyncService.sync_games_loop now uid account_id p rest n (u + 1) db3

/-- LibrarySyncService._sync_platform_library.  A missing linked account makes
the source raise NotFoundError with one argument, which the constructor turns
into a TypeError.  A failed token refresh propagates.  An empty fetched list
returns zero counts before the sync timestamp is touched; otherwise the games
are processed and last_synced_at stamped. -/
def LibrarySyncService.sync_platform_library (env : Env) (now uid : Nat)
    (p : PlatformType) (db : DB) : Except PyErr SyncCounts × DB :=
  match LinkedAccountRepository.get_by_user_and_platform db uid p with
  | none => (.error (.typeError notFoundCtorMsg), db)
  | some account0 =>
    match OAuthService.refresh_token_if_needed env now db account0 with
    | (.error e, db2) => (.error e, db2)
    | (.ok account, db2) =>
      let platform_games := LibrarySyncService.fetch_platform_games env account
      if platform_games.isEmpty then
        (.ok { total := 0, new := 0, updated := 0 }, db2)
      else
        let (n, u, db3) := LibrarySyncService.sync_games_loop now uid account.id
          p platform_games 0 0 db2
        let db4 := LinkedAccountRepository.update_sync_time db3 account.id now
        (.ok { total := platform_games.length, new := n, updated := u }, db4)

/-- The overall sync summary dict. -/
structure SyncSummary where
  synced_platforms : List String := []
  total_games : Nat := 0
  new_games : Nat := 0
  updated_games : Nat := 0
  errors : List String := []
  deriving DecidableEq, Repr

/-- The per-platform loop of sync_user_library: each platform is synced in
turn; success appends the platform value to synced_platforms and adds its
counts, while an exception is caught and recorded in errors as the platform
value, a colon and str(e), without stopping the remaining platforms. -/
def LibrarySyncService.sync_platforms_loop (env : Env) (now uid : Nat) :
    List PlatformType → SyncSummary → DB → SyncSummary × DB
  | [], s, db => (s, db)
  | p :: rest, s, db =>
    match LibrarySyncService.sync_platform_library env now uid p db with
    | (.ok c, db2) =>
      LibrarySyncService.sync_platforms_loop env now uid rest
        { s with
          synced_platforms := s.synced_platforms ++ [p.value],
          total_games := s.total_games + c.total,
          new_games := s.new_games + c.new,
          updated_games := s.updated_games + c.updated } db2
    | (.error e, db2) =>
      LibrarySyncService.sync_platforms_loop env now uid rest
        { s with errors := s.errors ++ [p.value ++ ": " ++ pyErrStr e] } db2

/-- LibrarySyncService.sync_user_library: the platform argument, or else every
linked platform of the user most recently connected first; an empty platform
list short-circuits with an empty summary. -/
def LibrarySyncService.sync_user_library (env : Env) (now uid : Nat)
    (platformArg : Option PlatformType) (db : DB) : SyncSummary × DB :=
  let platforms :=
    match platformArg with
    | some p => [p]
    | none =>
      (LinkedAccountRepository.get_user_accounts db uid).map
        (fun a => a.platform)
  if platforms.isEmpty then ({}, db)
  else LibrarySyncService.sync_platforms_loop env now uid platforms {} db

/-- Job execution status (sync_job_manager.py, JobStatus). -/
inductive JobStatus where
  | pending
  | running
  | completed
  | failed
  | cancelled
  deriving DecidableEq, Repr

/-- A library sync job (sync_job_manager.py, SyncJob). -/
structure SyncJob where
  job_id : String
  user_id : Nat
  platform : Option String := none
  status : JobStatus := .pending
  progress : Int := 0
  total_games : Int := 0
  synced_games : Int := 0
  failed_games : Int := 0
  created_at : Nat := 0
  started_at : Option Nat := none
  completed_at : Option Nat := none
  error : Option String := none
  result : Option SyncSummary := none
  deriving DecidableEq, Repr

/-- SyncJobManager.create_job: a fresh pending job with zero progress. -/
def SyncJobManager.create_job (job_id : String) (uid : Nat)
    (platform : Option String) (t : Nat) : SyncJob :=
  { job_id := job_id, user_id := uid, platform := platform, created_at := t }

/-- SyncJobManager.start_job: only a pending job may start; it becomes running
with started_at recorded, anything else raises ValueError. -/
def SyncJobManager.start_job (j : SyncJob) (t : Nat) : Except PyErr SyncJob :=
  if j.status != .pending then
    .error (.valueError ("Job " ++ j.job_id ++ " is not pending"))
  else .ok { j with status := .running, started_at := some t }

/-- How the awaited sync coroutine ends: with a summary, by cancellation, or
with an exception message. -/
inductive JobOutcome where
  | success (r : SyncSummary)
  | cancelled
  | failure (msg : String)
  deriving DecidableEq, Repr

/-- SyncJobManager._execute_job: the single transition applied when the job
coroutine finishes, per outcome. -/
def SyncJobManager.execute_job (j : SyncJob) (o : JobOutcome) (t : Nat) :
    SyncJob :=
  match o with
  | .success r =>
    { j with
      status := .completed, completed_at := some t, progress := 100,
      result := some r }
  | .cancelled => { j with status := .cancelled, completed_at := some t }
  | .failure m =>
    { j with status := .failed, completed_at := some t, error := some m }

/-- SyncJobManager.update_progress: each provided field is stored; progress is
clamped into 0..100 as min(100, max(0, p)). -/
def SyncJobManager.update_progress (j : SyncJob)
    (progress total_games synced_games failed_games : Option Int) : SyncJob :=
  let j1 :=
    match progress with
    | some pr => { j with progress := min 100 (max 0 pr) }
    | none => j
  let j2 :=
    match total_games with
    | some v => { j1 with total_games := v }
    | none => j1
  let j3 :=
    match synced_games with
    | some v => { j2 with synced_games := v }
    | none => j2
  match failed_games with
  | some v => { j3 with failed_games := v }
  | none => j3

/- Concrete environments and stores used to evaluate the modelled operations
on explicit inputs. -/

/-- An environment in which every external request fails and every exchange
returns nothing. -/
def stubEnv : Env :=
  { steamOwnedGames := fun _ => .error "offline",
    steamAchievements := fun _ _ => .error "offline",
    psnUserTitles := fun _ _ => .error "offline",
    xboxUserTitles := fun _ _ => .error "offline",
    psnRefresh := fun _ => none,
    xboxRefresh := fun _ => none,
    steamVerify := none,
    steamUserInfo := fun _ => none,
    psnExchange := fun _ _ => none,
    xboxExchange := fun _ _ => none,
    psnUserInfo := fun _ => none }

/-- Steam returns a single owned title with 120 minutes of playtime. -/
def envC1 : Env :=
  { stubEnv with
    steamOwnedGames := fun _ =>
      .ok [{ appid := 440, name := some "Team Fortress 2",
             playtime_forever := some 120 }] }

/-- A user with a linked Steam account and a catalog that contains the title. -/
def acctC1 : LinkedAccount :=
  { id := 1, user_id := 1, platform := .steam,
    platform_user_id := "76561198000000001" }

def dbC1 : DB :=
  { linked_accounts := [acctC1],
    games := [{ id := 7, name := "Team Fortress 2" }],
    next_account_id := 2 }

/-- Accounts for exercising refresh_token_if_needed: a Steam account, a PSN
account with an unexpired token, and a PSN account whose token expired. -/
def steamAcctC2 : LinkedAccount :=
  { id := 1, user_id := 1, platform := .steam, platform_user_id := "sid-c2" }

def psnFreshC2 : LinkedAccount :=
  { id := 2, user_id := 1, platform := .playstation,
    platform_user_id := "psn-c2", refresh_token := some "r-c2",
    token_expires_at := some 1000 }

def psnExpiredC2 : LinkedAccount :=
  { id := 3, user_id := 1, platform := .playstation,
    platform_user_id := "psn-c2x", refresh_token := some "r-c2x",
    token_expires_at := some 10 }

def dbC2 : DB :=
  { linked_accounts := [steamAcctC2, psnFreshC2, psnExpiredC2],
    next_account_id := 4 }

/-- The PSN refresh endpoint succeeds with a fresh token bundle. -/
def envC2ok : Env :=
  { stubEnv with
    psnRefresh := fun _ =>
      some { access_token := "newAT", refresh_token := some "newRT",
             expires_at := 5000 } }

/-- A linked Xbox account for the unlink evaluation. -/
def acctC3 : LinkedAccount :=
  { id := 4, user_id := 2, platform := .xbox, platform_user_id := "xid3" }

def dbC3 : DB := { linked_accounts := [acctC3], next_account_id := 5 }

/-- A state store with one live token. -/
def stateStoreC4 : List (String × OAuthStateData) :=
  [("tokA", { user_id := 7, platform := "steam", expires_at := 100 })]

/-- A state store with one expired token. -/
def stateStoreC4x : List (String × OAuthStateData) :=
  [("tokB", { user_id := 8, platform := "xbox", expires_at := 10 })]

/-- User 1 owns Steam identity sid1 and PSN identity psn1. -/
def steamAcctC5 : LinkedAccount :=
  { id := 1, user_id := 1, platform := .steam, platform_user_id := "sid1",
    platform_username := some "OldName", access_token := some "",
    connected_at := 5 }

def psnAcctC5 : LinkedAccount :=
  { id := 2, user_id := 1, platform := .playstation,
    platform_user_id := "psn1", access_token := some "tok0", connected_at := 6 }

def dbC5 : DB :=
  { linked_accounts := [steamAcctC5, psnAcctC5], next_account_id := 3 }

/-- Callback environment: Steam verifies to sid1 with a fresh profile name,
and the PSN code exchange and profile calls succeed for identity psn1. -/
def envC5 : Env :=
  { stubEnv with
    steamVerify := some "sid1",
    steamUserInfo := fun _ => some "NewName",
    psnExchange := fun _ _ =>
      some { access_token := "at2", refresh_token := some "rt2",
             expires_at := 900 },
    psnUserInfo := fun _ =>
      some { account_id := some "psn1", username := some "PsnUser" } }

/-- User 1 has Steam (connected later) and PSN linked; the Steam fetch raises
inside the client while the PSN title request succeeds with no titles. -/
def dbC6x : DB :=
  { linked_accounts :=
      [{ id := 1, user_id := 1, platform := .steam,
         platform_user_id := "sid6", connected_at := 20 },
       { id := 2, user_id := 1, platform := .playstation,
         platform_user_id := "psn6", connected_at := 10 }],
    next_account_id := 3 }

def envC6x : Env :=
  { stubEnv with
    steamOwnedGames := fun _ => .error "connection timeout",
    psnUserTitles := fun _ _ => .ok [] }

/-- User 1 has an expired PSN account (connected later) whose refresh fails,
and a Steam account whose fetch yields nothing. -/
def dbC6w : DB :=
  { linked_accounts :=
      [{ id := 1, user_id := 1, platform := .playstation,
         platform_user_id := "psn6w", refresh_token := some "r6w",
         token_expires_at := some 10, connected_at := 30 },
       { id := 2, user_id := 1, platform := .steam,
         platform_user_id := "sid6w", connected_at := 20 }],
    next_account_id := 3 }

def envC6w : Env := { stubEnv with psnUserTitles := fun _ _ => .ok [] }

/-- A job currently running. -/
def jRunC7 : SyncJob :=
  { job_id := "job-7", user_id := 1, status := .running, started_at := some 1 }

/-- A pending job and the same job once started at tick 3. -/
def jPendC7 : SyncJob := { job_id := "job-7b", user_id := 1 }

def jStartedC7 : SyncJob :=
  { job_id := "job-7b", user_id := 1, status := .running, started_at := some 3 }

/-- A freshly created job for the progress-range witness. -/
def jC9 : SyncJob := { job_id := "job-9", user_id := 1 }

/-- Steam exposes an achievements endpoint reporting three achievements of
which two are earned. -/
def envC10 : Env :=
  { stubEnv with steamAchievements := fun _ _ => .ok [1, 0, 1] }

/-- Steam returns the single title of the C8 scenario; the local catalog is
empty. -/
def envC8 : Env :=
  { stubEnv with
    steamOwnedGames := fun _ =>
      .ok [{ appid := 440, name := some "Team Fortress 2",
             playtime_forever := some 120 }] }

def acctC8 : LinkedAccount :=
  { id := 1, user_id := 1, platform := .steam,
    platform_user_id := "76561198000000002" }

def dbC8 : DB := { linked_accounts := [acctC8], next_account_id := 2 }

/-- The normalized form of the C8 Steam title: 120 minutes become 2 hours. -/
def tf2C8 : PlatformGame :=
  { platform_game_id := some "440", name := some "Team Fortress 2",
    playtime_hours := some 2 }

/- Theorems. -/

/-- Deleting a token from the state store makes it unfindable. -/
theorem statesLookup_statesErase (s : List (String × OAuthStateData))
    (tok : String) : statesLookup (statesErase s tok) tok = none := by
  simp only [statesLookup, statesErase, Option.map_eq_none',
    List.find?_eq_none]
  intro kv hkv
  have h := List.of_mem_filter hkv
  simpa using h

/-- C10: for every platform title processed for Steam, the achievement count
written to the library entry is 0, independent of the title data — even though
the Steam client does expose a per-game achievements method, shown here
counting 2 earned of 3 on a concrete response. -/
theorem steam_achievement_count_always_zero (pg : PlatformGame) :
    LibrarySyncService.calculate_achievements pg .steam = 0 ∧
    SteamOAuthClient.get_achievements envC10 "sid" "440" = some (3, 2) :=
  ⟨rfl, by decide⟩

/-- C9: update_progress stores min(100, max(0, p)) for a provided progress
value, which always lies in 0..100; a missing progress argument leaves the
field unchanged; a created job starts at 0; and the job-completion transition
keeps progress in range, so no observable job reports progress outside 0..100. -/
theorem update_progress_clamped (j : SyncJob) (p : Int) (tg sg fg : Option Int)
    (jid : String) (uid : Nat) (plat : Option String) (t : Nat)
    (o : JobOutcome) :
    (SyncJobManager.update_progress j (some p) tg sg fg).progress =
      min 100 (max 0 p) ∧
    0 ≤ (SyncJobManager.update_progress j (some p) tg sg fg).progress ∧
    (SyncJobManager.update_progress j (some p) tg sg fg).progress ≤ 100 ∧
    (SyncJobManager.update_progress j none tg sg fg).progress = j.progress ∧
    (SyncJobManager.create_job jid uid plat t).progress = 0 ∧
    (0 ≤ j.progress → j.progress ≤ 100 →
      0 ≤ (SyncJobManager.execute_job j o t).progress ∧
      (SyncJobManager.execute_job j o t).progress ≤ 100) := by
  have h1 : (SyncJobManager.update_progress j (some p) tg sg fg).progress =
      min 100 (max 0 p) := by
    unfold SyncJobManager.update_progress
    cases tg <;> cases sg <;> cases fg <;> rfl
  have h0 : (SyncJobManager.update_progress j none tg sg fg).progress =
      j.progress := by
    unfold SyncJobManager.update_progress
    cases tg <;> cases sg <;> cases fg <;> rfl
  refine ⟨h1, ?_, ?_, h0, rfl, ?_⟩
  · rw [h1]
    exact le_min (by norm_num) (le_max_left 0 p)
  · rw [h1]
    exact min_le_left 100 (max 0 p)
  · intro hl hr
    cases o <;> simp [SyncJobManager.execute_job] <;> omega

/-- C9 witness: an out-of-range update on a concrete job is clamped to 100,
and a cancelled completion keeps the progress nonnegative. -/
theorem update_progress_clamped_witness :
    (SyncJobManager.update_progress jC9 (some 250) none none none).progress =
      100 ∧
    0 ≤ (SyncJobManager.execute_job jC9 .cancelled 5).progress := by
  have h := update_progress_clamped jC9 250 none none none "w" 1 none 5
    .cancelled
  refine ⟨?_, (h.2.2.2.2.2 (by decide) (by decide)).1⟩
  rw [h.1]
  decide

/-- C7 counterexample: update_progress can set progress to 100 on a job that
is still running, so progress = 100 does not imply status = completed; this
refutes the part of the claim that progress reaches 100 only on completed. -/
theorem progress_100_while_still_running :
    (SyncJobManager.update_progress jRunC7 (some 100) none none none).progress
      = 100 ∧
    (SyncJobManager.update_progress jRunC7 (some 100) none none none).status
      = .running ∧
    ¬ ((SyncJobManager.update_progress jRunC7 (some 100) none none
          none).progress = 100 →
        (SyncJobManager.update_progress jRunC7 (some 100) none none
          none).status = .completed) := by
  decide

/-- C7 amended: a started job (one that start_job moved to running) is moved
by the completion transition into exactly one terminal state with completed_at
recorded: completed exactly on success (with progress 100 and the result
stored), failed exactly on an exception (with the message stored), cancelled
exactly on cancellation.  The execution transitions set progress to 100 only
on completed, though update_progress may independently set 100 while
running. -/
theorem started_job_single_terminal_state (j j1 : SyncJob) (t0 t : Nat)
    (o : JobOutcome) (hstart : SyncJobManager.start_job j t0 = .ok j1) :
    j1.status = .running ∧
    (SyncJobManager.execute_job j1 o t).completed_at = some t ∧
    ((SyncJobManager.execute_job j1 o t).status = .completed ∨
      (SyncJobManager.execute_job j1 o t).status = .failed ∨
      (SyncJobManager.execute_job j1 o t).status = .cancelled) ∧
    ((SyncJobManager.execute_job j1 o t).status = .completed ↔
      ∃ r, o = .success r) ∧
    (∀ r, o = .success r →
      (SyncJobManager.execute_job j1 o t).progress = 100 ∧
      (SyncJobManager.execute_job j1 o t).result = some r) ∧
    (∀ m, o = .failure m →
      (SyncJobManager.execute_job j1 o t).error = some m) := by
  have hj1 : j1.status = .running := by
    unfold SyncJobManager.start_job at hstart
    split at hstart
    · simp at hstart
    · injection hstart with h
      subst h
      rfl
  cases o <;> simp [SyncJobManager.execute_job, hj1]

/-- C7 witness: applying the terminal-state theorem to a concrete pending job
started at tick 3 and failing at tick 9. -/
theorem started_job_single_terminal_state_witness :
    (SyncJobManager.execute_job jStartedC7 (.failure "boom") 9).completed_at =
      some 9 ∧
    (SyncJobManager.execute_job jStartedC7 (.failure "boom") 9).error =
      some "boom" := by
  have h := started_job_single_terminal_state jPendC7 jStartedC7 3 9
    (.failure "boom") (by rfl)
  exact ⟨h.2.1, h.2.2.2.2.2 "boom" rfl⟩

/-- C4: consuming a state token returns none for an unknown token with the
store untouched; purges and returns none for a known-but-expired token; and
for a live token returns the stored user id, deletes the entry, and makes any
second consume of the same token return none. -/
theorem oauth_state_token_single_use (s : List (String × OAuthStateData))
    (tok : String) (now : Nat) :
    (statesLookup s tok = none →
      OAuthStateManager.get_user_id now s tok = (none, s)) ∧
    (∀ d, statesLookup s tok = some d → d.expires_at < now →
      OAuthStateManager.get_user_id now s tok = (none, statesErase s tok) ∧
      statesLookup (statesErase s tok) tok = none) ∧
    (∀ d, statesLookup s tok = some d → ¬ d.expires_at < now →
      OAuthStateManager.get_user_id now s tok =
        (some d.user_id, statesErase s tok) ∧
      ∀ now2, OAuthStateManager.get_user_id now2 (statesErase s tok) tok =
        (none, statesErase s tok)) := by
  refine ⟨fun h => ?_, fun d h hexp => ?_, fun d h hexp => ?_⟩
  · simp [OAuthStateManager.get_user_id, h]
  · exact ⟨by simp [OAuthStateManager.get_user_id, h, hexp],
      statesLookup_statesErase s tok⟩
  · refine ⟨by simp [OAuthStateManager.get_user_id, h, hexp], fun now2 => ?_⟩
    simp [OAuthStateManager.get_user_id, statesLookup_statesErase s tok]

/-- C4 witness: on concrete stores, an unknown token yields none, a live token
yields its user once and none on the second consume, and an expired token is
purged with none returned. -/
theorem oauth_state_token_single_use_witness :
    OAuthStateManager.get_user_id 50 stateStoreC4 "missing" =
      (none, stateStoreC4) ∧
    OAuthStateManager.get_user_id 50 stateStoreC4 "tokA" = (some 7, []) ∧
    OAuthStateManager.get_user_id 50 [] "tokA" = (none, []) ∧
    OAuthStateManager.get_user_id 50 stateStoreC4x "tokB" = (none, []) := by
  have h1 := (oauth_state_token_single_use stateStoreC4 "missing" 50).1
    (by decide)
  have h2 := (oauth_state_token_single_use stateStoreC4 "tokA" 50).2.2
    { user_id := 7, platform := "steam", expires_at := 100 }
    (by decide) (by decide)
  have h3 := (oauth_state_token_single_use stateStoreC4x "tokB" 50).2.1
    { user_id := 8, platform := "xbox", expires_at := 10 }
    (by decide) (by decide)
  refine ⟨h1, h2.1.trans (by decide), ?_, h3.1.trans (by decide)⟩
  have h4 := h2.2 50
  rw [show statesErase stateStoreC4 "tokA" = [] from by decide] at h4
  exact h4

/-- C3: unlink deletes the linked account row when one exists; when none
exists the stored state is unchanged but the failure escapes as a TypeError
(NotFoundError built with one argument), not as a NotFoundError. -/
theorem unlink_account_deletes_or_type_errors (db : DB) (uid : Nat)
    (p : PlatformType) :
    (LinkedAccountRepository.get_by_user_and_platform db uid p = none →
      OAuthService.unlink_account db uid p =
        (.error (.typeError notFoundCtorMsg), db)) ∧
    (∀ a, LinkedAccountRepository.get_by_user_and_platform db uid p = some a →
      OAuthService.unlink_account db uid p =
        (.ok (), { db with linked_accounts :=
          db.linked_accounts.filter (fun x => x.id != a.id) })) := by
  constructor
  · intro h
    simp [OAuthService.unlink_account,
      LinkedAccountRepository.delete_by_user_and_platform, h]
  · intro a h
    simp [OAuthService.unlink_account,
      LinkedAccountRepository.delete_by_user_and_platform, h]

/-- C3 witness: on a concrete store, unlinking a platform with no linked
account raises the TypeError and leaves the store unchanged, and unlinking a
linked platform removes its row. -/
theorem unlink_account_deletes_or_type_errors_witness :
    OAuthService.unlink_account dbC3 2 .steam =
      (.error (.typeError notFoundCtorMsg), dbC3) ∧
    OAuthService.unlink_account dbC3 2 .xbox =
      (.ok (), { dbC3 with linked_accounts := [] }) := by
  constructor
  · exact (unlink_account_deletes_or_type_errors dbC3 2 .steam).1 (by decide)
  · exact ((unlink_account_deletes_or_type_errors dbC3 2 .xbox).2 acctC3
      (by decide)).trans (by decide)

/-- C2: refresh_token_if_needed is a no-op for Steam and for an unexpired PSN
token; an expired token whose refresh fails raises AuthenticationError; but an
expired token whose refresh succeeds raises TypeError (the update_tokens call
passes the keyword expires_at) and persists nothing, instead of storing the
fresh tokens. -/
theorem refresh_token_if_needed_eval :
    OAuthService.refresh_token_if_needed envC2ok 100 dbC2 steamAcctC2 =
      (.ok steamAcctC2, dbC2) ∧
    OAuthService.refresh_token_if_needed envC2ok 100 dbC2 psnFreshC2 =
      (.ok psnFreshC2, dbC2) ∧
    OAuthService.refresh_token_if_needed stubEnv 100 dbC2 psnExpiredC2 =
      (.error (.authenticationError "Failed to refresh playstation token"),
        dbC2) ∧
    OAuthService.refresh_token_if_needed envC2ok 100 dbC2 psnExpiredC2 =
      (.error (.typeError updateTokensKwargMsg), dbC2) := by
  decide

/-- C5: a platform identity verified for a different local user is rejected
with ConflictError and no record changes, for Steam and for PSN alike; the
same user relinking through Steam has the existing row updated in place with
no second row; but the same user reconnecting through PSN hits the TypeError
of the expires_at keyword instead of the update-in-place. -/
theorem oauth_callback_conflict_and_relink :
    OAuthService.handle_steam_callback envC5 77 dbC5 9 =
      (.error (.conflictError
        "This Steam account is already linked to another user"), dbC5) ∧
    OAuthService.handle_oauth_callback envC5 77 dbC5 9 .playstation "code"
        "uri" =
      (.error (.conflictError
        "This playstation account is already linked to another user"),
        dbC5) ∧
    (OAuthService.handle_steam_callback envC5 77 dbC5 1).2.linked_accounts =
      [{ steamAcctC5 with
         platform_username := some "NewName",
         connected_at := 77 },
       psnAcctC5] ∧
    OAuthService.handle_oauth_callback envC5 77 dbC5 1 .playstation "code"
        "uri" =
      (.error (.typeError updateTokensKwargMsg), dbC5) := by
  decide

/-- C1: syncing the same Steam title twice with identical playtime — with the
title present in the catalog — creates no library entry at all and counts
new = 0 and updated = 0 on both passes: the local name lookup calls the
nonexistent search_by_name and the per-title exception handler skips the
title, and even on the upsert path the created flag is the always-truthy
entry object, so updated_games could never be incremented. -/
theorem sync_same_title_twice_eval :
    (LibrarySyncService.sync_platform_library envC1 50 1 .steam dbC1).1 =
      .ok { total := 1, new := 0, updated := 0 } ∧
    (LibrarySyncService.sync_platform_library envC1 50 1 .steam
      dbC1).2.library = [] ∧
    (LibrarySyncService.sync_platform_library envC1 60 1 .steam
      (LibrarySyncService.sync_platform_library envC1 50 1 .steam
        dbC1).2).1 = .ok { total := 1, new := 0, updated := 0 } ∧
    (LibrarySyncService.sync_platform_library envC1 60 1 .steam
      (LibrarySyncService.sync_platform_library envC1 50 1 .steam
        dbC1).2).2.library = [] := by
  decide

/-- C8: the Steam client does normalize 120 minutes into 2.0 hours, but with
no catalog match the sync never reaches the external-catalog fallback: the
local lookup itself raises AttributeError (search_by_name does not exist), the
title is skipped, no library entry is created and new_games stays 0. -/
theorem steam_title_unmatched_is_skipped :
    SteamOAuthClient.get_owned_games envC8 "76561198000000002" =
      [{ tf2C8 with playtime_hours := some (roundPy2 120) }] ∧
    roundPy2 120 = 2 ∧
    LibrarySyncService.match_platform_game dbC8 tf2C8 =
      (.error (.attributeError searchByNameMissingMsg), dbC8) ∧
    (LibrarySyncService.sync_user_library envC8 50 1 (some .steam) dbC8).1 =
      { synced_platforms := ["steam"], total_games := 1, new_games := 0,
        updated_games := 0, errors := [] } ∧
    (LibrarySyncService.sync_user_library envC8 50 1 (some .steam)
      dbC8).2.library = [] := by
  refine ⟨rfl, ?_, by decide, by decide, by decide⟩
  have h200 : roundCentihours 120 = 200 := by decide
  unfold roundPy2
  rw [h200]
  norm_num

/-- C6 counterexample: a Steam fetch failure (the owned-games request raises
inside the client) is swallowed into an empty list, so the platform syncs
with zero counts: steam stays in synced_platforms and errors stays empty,
against the claim that a platform fetch failure is appended to errors and the
platform excluded. -/
theorem steam_fetch_failure_swallowed :
    (LibrarySyncService.sync_user_library envC6x 50 1 none dbC6x).1.errors =
      [] ∧
    "steam" ∈ (LibrarySyncService.sync_user_library envC6x 50 1 none
      dbC6x).1.synced_platforms := by
  decide

/-- C6 amended: an exception raised while syncing one platform — such as a
missing linked account or a failed token refresh — is caught, recorded in
errors as the platform value, a colon and the message, the platform excluded
from synced_platforms, and the remaining platforms still processed with their
counts untouched; a platform fetch failure, by contrast, never raises (the
clients swallow it into an empty list, as the counterexample shows). -/
theorem platform_exception_isolated (env : Env) (now uid : Nat)
    (db db1 db2 : DB) (p1 p2 : PlatformType) (e : PyErr) (c : SyncCounts)
    (hacc : (LinkedAccountRepository.get_user_accounts db uid).map
      (fun a => a.platform) = [p1, p2])
    (h1 : LibrarySyncService.sync_platform_library env now uid p1 db =
      (.error e, db1))
    (h2 : LibrarySyncService.sync_platform_library env now uid p2 db1 =
      (.ok c, db2)) :
    LibrarySyncService.sync_user_library env now uid none db =
      ({ synced_platforms := [p2.value], total_games := c.total,
         new_games := c.new, updated_games := c.updated,
         errors := [p1.value ++ ": " ++ pyErrStr e] }, db2) := by
  simp [LibrarySyncService.sync_user_library, hacc,
    LibrarySyncService.sync_platforms_loop, h1, h2]

/-- C6 witness: user 1 has an expired PSN account whose refresh fails and a
Steam account with an empty library; the summary carries the PSN error string,
lists only steam as synced, and the Steam pass is unaffected. -/
theorem platform_exception_isolated_witness :
    LibrarySyncService.sync_user_library envC6w 100 1 none dbC6w =
      ({ synced_platforms := ["steam"], total_games := 0, new_games := 0,
         updated_games := 0,
         errors := ["playstation: Failed to refresh playstation token"] },
        dbC6w) := by
  have h := platform_exception_isolated envC6w 100 1 dbC6w dbC6w dbC6w
    .playstation .steam
    (.authenticationError "Failed to refresh playstation token")
    { total := 0, new := 0, updated := 0 }
    (by decide) (by decide) (by decide)
  exact h.trans (by decide)

end GameReviewApp
